import Mathlib

/-!
Shallow embedding of `src/inventory_system.py` (class `InventorySystem`):
an in-memory item-name → quantity mapping with validated mutation
(`add_item`/`remove_item`), a low-stock query (`check_low_items`),
JSON-value persistence (`load_data`/`save_data`), and query helpers
(`get_qty`/`as_dict`).

Python dictionaries are modelled as association lists with first-match
lookup; Python run-time values (the arguments that may fail `isinstance`
checks and the values produced by `json.load`) are modelled by `PyVal`.
Exceptions are modelled by an explicit error type: each constructor
corresponds to one family of raise sites in the Python code.
-/

/-- A Python run-time value, as far as the inventory code inspects one:
`None`, `bool`, `int`, `float`, `str`, `list`, `dict`.  The numeric payload
of a float is never inspected by any of the embedded operations (a float is
only ever type-tested and rejected), so the constructor carries none. -/
inductive PyVal where
  | vNone : PyVal
  | vBool : Bool → PyVal
  | vInt : Int → PyVal
  | vFloat : PyVal
  | vStr : String → PyVal
  | vList : List PyVal → PyVal
  | vDict : List (PyVal × PyVal) → PyVal

/-- Python `isinstance(v, str)`. -/
def isinstance_str : PyVal → Bool
  | .vStr _ => true
  | _ => false

/-- Python `isinstance(v, int)`.  In Python, `bool` is a subclass of `int`,
so booleans pass this check. -/
def isinstance_int : PyVal → Bool
  | .vInt _ => true
  | .vBool _ => true
  | _ => false

/-- The integer value carried by a `PyVal` that passes `isinstance(v, int)`
(`True` counts as 1 and `False` as 0, as in Python); 0 on anything else. -/
def pyInt : PyVal → Int
  | .vInt n => n
  | .vBool b => if b then 1 else 0
  | _ => 0

/-- The string carried by a `PyVal` that passes `isinstance(v, str)`; the
empty string on anything else. -/
def pyStr : PyVal → String
  | .vStr s => s
  | _ => ""

/-- The error kinds of the spec, one constructor per family of raise sites:
`invalidArgument` for the `ValueError`s of argument validation,
`notFound` for the `KeyError` of `remove_item`,
`insufficientQuantity` for the `ValueError` of the stock check in
`remove_item`, and `formatError` for the `ValueError`s of `load_data`.
Each carries the Python exception's message. -/
inductive InvError where
  | invalidArgument : String → InvError
  | notFound : String → InvError
  | insufficientQuantity : String → InvError
  | formatError : String → InvError
  deriving DecidableEq, Repr

/-- The state `self._inventory`: a Python `Dict[str, int]`, modelled as an
association list with first-match lookup. -/
abbrev Inventory := List (String × Int)

/-- Python `self._inventory.get(name)` / `name in self._inventory`:
first-match lookup in the association list. -/
def lookup : Inventory → String → Option Int
  | [], _ => none
  | (k, v) :: rest, name => if k = name then some v else lookup rest name

/-- Python `self._inventory[name] = q`: replace the first binding of `name`,
or append a fresh binding when `name` is absent. -/
def setQty : Inventory → String → Int → Inventory
  | [], name, q => [(name, q)]
  | (k, v) :: rest, name, q =>
      if k = name then (name, q) :: rest else (k, v) :: setQty rest name q

/-- Python `del self._inventory[name]`: drop the first binding of `name`. -/
def eraseKey : Inventory → String → Inventory
  | [], _ => []
  | (k, v) :: rest, name => if k = name then rest else (k, v) :: eraseKey rest name

/-- Well-formedness of the association-list model: a Python dict never holds
two bindings for the same key. -/
def KeysNodup (inv : Inventory) : Prop := (inv.map Prod.fst).Nodup

instance (inv : Inventory) : Decidable (KeysNodup inv) :=
  inferInstanceAs (Decidable (inv.map Prod.fst).Nodup)

/-- `InventorySystem.__init__` (src/inventory_system.py:20-27): stores
`dict(initial or {})`, a copy of the given mapping with no validation. -/
def init_store (initial : Inventory) : Inventory := initial

/-- `InventorySystem.add_item` (src/inventory_system.py:29-47).  Returns the
raised exception (if any) together with the state of `self._inventory` when
the call returns or raises. -/
def add_item (inv : Inventory) (name qty : PyVal) : Option InvError × Inventory :=
  if isinstance_str name = false ∨ pyStr name = "" then
    (some (.invalidArgument "name must be a non-empty string"), inv)
  else if isinstance_int qty = false ∨ pyInt qty ≤ 0 then
    (some (.invalidArgument "qty must be a positive integer"), inv)
  else
    let prev := (lookup inv (pyStr name)).getD 0
    (none, setQty inv (pyStr name) (prev + pyInt qty))

/-- `InventorySystem.remove_item` (src/inventory_system.py:49-67).  Returns
the raised exception (if any) together with the state of `self._inventory`
when the call returns or raises. -/
def remove_item (inv : Inventory) (name : String) (qty : PyVal) : Option InvError × Inventory :=
  if isinstance_int qty = false ∨ pyInt qty ≤ 0 then
    (some (.invalidArgument "qty must be a positive integer"), inv)
  else
    match lookup inv name with
    | none => (some (.notFound ("item \x27" ++ name ++ "\x27 not found")), inv)
    | some cur =>
      if cur < pyInt qty then
        (some (.insufficientQuantity "not enough quantity to remove"), inv)
      else
        let inv1 := setQty inv name (cur - pyInt qty)
        if lookup inv1 name = some 0 then (none, eraseKey inv1 name)
        else (none, inv1)

/-- `InventorySystem.get_qty` (src/inventory_system.py:69-71):
`int(self._inventory.get(name, 0))`. -/
def get_qty (inv : Inventory) (name : String) : Int :=
  (lookup inv name).getD 0

/-- `InventorySystem.as_dict` (src/inventory_system.py:138-140): a shallow
copy of the mapping (identity at the level of values). -/
def as_dict (inv : Inventory) : Inventory := inv

/-- `InventorySystem.check_low_items` (src/inventory_system.py:127-136). -/
def check_low_items (inv : Inventory) (threshold : PyVal) : Except InvError (List String) :=
  if isinstance_int threshold = false ∨ pyInt threshold < 0 then
    .error (.invalidArgument "threshold must be a non-negative integer")
  else
    .ok ((inv.filter (fun p => p.2 ≤ pyInt threshold)).map Prod.fst)

/-- All-digit decimal parse of a nonempty character list. -/
def parseNatDigits (cs : List Char) : Option Nat :=
  if !cs.isEmpty && cs.all Char.isDigit then
    some (cs.foldl (fun acc c => acc * 10 + (c.toNat - 48)) 0)
  else
    none

/-- Model of Python `ast.literal_eval` (the standard library, not part of
this repository), restricted to the literal forms the inventory data can
meaningfully carry: an optionally signed decimal integer literal yields an
`int`, the keywords `True`/`False`/`None` yield a boolean / `None`, and
every other string is a parse failure (`ValueError`/`SyntaxError`),
modelled as `none`. -/
def literal_eval (s : String) : Option PyVal :=
  if s = "True" then some (.vBool true)
  else if s = "False" then some (.vBool false)
  else if s = "None" then some .vNone
  else
    match s.toList with
    | '-' :: rest => (parseNatDigits rest).map (fun n => PyVal.vInt (-(n : Int)))
    | '+' :: rest => (parseNatDigits rest).map (fun n => PyVal.vInt (n : Int))
    | cs => (parseNatDigits cs).map (fun n => PyVal.vInt (n : Int))

/-- The validation loop of `InventorySystem.load_data`
(src/inventory_system.py:94-111): build the normalized mapping entry by
entry, raising at the first offending key or value. -/
def normalize_entries : List (PyVal × PyVal) → Except InvError (List (String × Int))
  | [] => .ok []
  | (k, v) :: rest =>
    match k with
    | .vStr ks =>
      if isinstance_int v then
        (normalize_entries rest).map (fun r => (ks, pyInt v) :: r)
      else
        match v with
        | .vStr s =>
          match literal_eval s with
          | some ev =>
            if isinstance_int ev then
              (normalize_entries rest).map (fun r => (ks, pyInt ev) :: r)
            else .error (.formatError ("invalid quantity for item " ++ ks))
          | none => .error (.formatError ("invalid quantity for item " ++ ks))
        | _ => .error (.formatError ("invalid quantity type for item " ++ ks))
    | _ => .error (.formatError "inventory keys must be strings")

/-- `InventorySystem.load_data` (src/inventory_system.py:73-113), from the
point where `json.load` has produced the parsed value `data`: reject a
non-dict top level, validate and normalize every entry, and only then
replace `self._inventory` wholesale.  Returns the raised exception (if any)
together with the state of `self._inventory` when the call returns or
raises. -/
def load_data (inv : Inventory) (data : PyVal) : Option InvError × Inventory :=
  match data with
  | .vDict entries =>
    match normalize_entries entries with
    | .ok normalized => (none, normalized)
    | .error e => (some e, inv)
  | _ => (some (.formatError "inventory file must contain a JSON object mapping names to integers"), inv)

/-- `InventorySystem.save_data` (src/inventory_system.py:115-120), at the
level of JSON values: `json.dump` of a `Dict[str, int]` writes exactly the
JSON object with those string keys and integer values (and a `json.load` of
that text parses back to the same value, so this definition is also the
composite serialize-then-parse of the round-trip property). -/
def save_data (inv : Inventory) : PyVal :=
  .vDict (inv.map (fun p => (PyVal.vStr p.1, PyVal.vInt p.2)))

/-- The state invariant of the spec: every key is a non-empty string and
every stored quantity is strictly positive. -/
def InventoryInvariant (inv : Inventory) : Prop :=
  ∀ p ∈ inv, p.1 ≠ "" ∧ 0 < p.2

instance (inv : Inventory) : Decidable (InventoryInvariant inv) :=
  inferInstanceAs (Decidable (∀ p ∈ inv, p.1 ≠ "" ∧ 0 < p.2))

/-! ### Association-list lemmas -/

theorem lookup_setQty_self (inv : Inventory) (n : String) (q : Int) :
    lookup (setQty inv n q) n = some q := by
  induction inv with
  | nil => simp [setQty, lookup]
  | cons hd tl ih =>
    obtain ⟨k, v⟩ := hd
    by_cases hk : k = n
    · simp [setQty, hk, lookup]
    · simp [setQty, hk, lookup, ih]

theorem lookup_setQty_ne (inv : Inventory) (n m : String) (q : Int) (h : m ≠ n) :
    lookup (setQty inv n q) m = lookup inv m := by
  have hnm : n ≠ m := Ne.symm h
  induction inv with
  | nil => simp [setQty, lookup, hnm]
  | cons hd tl ih =>
    obtain ⟨k, v⟩ := hd
    by_cases hk : k = n
    · subst hk
      have hkm : k ≠ m := Ne.symm h
      simp [setQty, lookup, hkm]
    · by_cases hm : k = m
      · subst hm
        simp [setQty, hk, lookup]
      · simp [setQty, hk, lookup, hm, ih]

theorem mem_setQty (inv : Inventory) (n : String) (q : Int) (p : String × Int)
    (h : p ∈ setQty inv n q) : p = (n, q) ∨ p ∈ inv := by
  induction inv with
  | nil =>
    simp [setQty] at h
    exact Or.inl h
  | cons hd tl ih =>
    obtain ⟨k, v⟩ := hd
    by_cases hk : k = n
    · simp only [setQty, hk, if_pos rfl] at h
      rcases List.mem_cons.mp h with h' | h'
      · exact Or.inl h'
      · exact Or.inr (List.mem_cons_of_mem _ h')
    · simp only [setQty, hk, if_neg hk] at h
      rcases List.mem_cons.mp h with h' | h'
      · exact Or.inr (List.mem_cons.mpr (Or.inl h'))
      · rcases ih h' with h'' | h''
        · exact Or.inl h''
        · exact Or.inr (List.mem_cons_of_mem _ h'')

theorem mem_eraseKey (inv : Inventory) (n : String) (p : String × Int)
    (h : p ∈ eraseKey inv n) : p ∈ inv := by
  induction inv with
  | nil => simp [eraseKey] at h
  | cons hd tl ih =>
    obtain ⟨k, v⟩ := hd
    by_cases hk : k = n
    · simp only [eraseKey, if_pos hk] at h
      exact List.mem_cons_of_mem _ h
    · simp only [eraseKey, if_neg hk] at h
      rcases List.mem_cons.mp h with h' | h'
      · exact List.mem_cons.mpr (Or.inl h')
      · exact List.mem_cons_of_mem _ (ih h')

theorem eraseKey_setQty (inv : Inventory) (n : String) (q : Int) :
    eraseKey (setQty inv n q) n = eraseKey inv n := by
  induction inv with
  | nil => simp [setQty, eraseKey]
  | cons hd tl ih =>
    obtain ⟨k, v⟩ := hd
    by_cases hk : k = n
    · simp [setQty, hk, eraseKey]
    · simp [setQty, hk, eraseKey, ih]

theorem lookup_eq_none_of_not_mem_keys (inv : Inventory) (n : String)
    (h : n ∉ inv.map Prod.fst) : lookup inv n = none := by
  induction inv with
  | nil => simp [lookup]
  | cons hd tl ih =>
    obtain ⟨k, v⟩ := hd
    simp only [List.map_cons, List.mem_cons] at h
    push_neg at h
    have hk : k ≠ n := Ne.symm h.1
    simp [lookup, hk, ih h.2]

theorem lookup_eraseKey_self (inv : Inventory) (n : String) (h : KeysNodup inv) :
    lookup (eraseKey inv n) n = none := by
  induction inv with
  | nil => simp [eraseKey, lookup]
  | cons hd tl ih =>
    obtain ⟨k, v⟩ := hd
    simp only [KeysNodup, List.map_cons, List.nodup_cons] at h
    by_cases hk : k = n
    · subst hk
      simp only [eraseKey, if_pos rfl]
      exact lookup_eq_none_of_not_mem_keys tl k h.1
    · simp [eraseKey, hk, lookup, ih h.2]

theorem lookup_mem (inv : Inventory) (n : String) (v : Int)
    (h : lookup inv n = some v) : (n, v) ∈ inv := by
  induction inv with
  | nil => simp [lookup] at h
  | cons hd tl ih =>
    obtain ⟨k, w⟩ := hd
    simp only [lookup] at h
    split at h
    · rename_i hk
      injection h with h2
      subst h2
      subst hk
      exact List.mem_cons_self _ _
    · exact List.mem_cons_of_mem _ (ih h)

theorem mem_lookup (inv : Inventory) (n : String) (v : Int)
    (hnd : KeysNodup inv) (h : (n, v) ∈ inv) : lookup inv n = some v := by
  induction inv with
  | nil => simp at h
  | cons hd tl ih =>
    obtain ⟨k, w⟩ := hd
    simp only [KeysNodup, List.map_cons, List.nodup_cons] at hnd
    rcases List.mem_cons.mp h with h' | h'
    · injection h' with hk hv
      subst hk
      subst hv
      simp [lookup]
    · have hk : ¬ k = n := by
        intro hkn
        refine hnd.1 ?_
        rw [hkn]
        exact List.mem_map_of_mem Prod.fst h'
      simp [lookup, hk, ih hnd.2 h']

/-! ### Characterization helpers -/

theorem isinstance_str_eq_false_iff (v : PyVal) :
    isinstance_str v = false ↔ ∀ s, v ≠ .vStr s := by
  constructor
  · intro h s hs
    subst hs
    simp [isinstance_str] at h
  · intro h
    cases v with
    | vStr s => exact absurd rfl (h s)
    | vNone => rfl
    | vBool b => rfl
    | vInt n => rfl
    | vFloat => rfl
    | vList l => rfl
    | vDict d => rfl

theorem remove_item_err_state (inv : Inventory) (name : String) (qty : PyVal) :
    (remove_item inv name qty).1 = none ∨ (remove_item inv name qty).2 = inv := by
  unfold remove_item
  split
  · exact Or.inr rfl
  · split
    · exact Or.inr rfl
    · split
      · exact Or.inr rfl
      · dsimp only
        split
        · exact Or.inl rfl
        · exact Or.inl rfl

theorem load_data_err_state (inv : Inventory) (data : PyVal) :
    (load_data inv data).1 = none ∨ (load_data inv data).2 = inv := by
  unfold load_data
  split
  · split
    · exact Or.inl rfl
    · exact Or.inr rfl
  · exact Or.inr rfl

/-! ### Claim theorems -/

/-- C1: a failing `remove_item` — invalid quantity, absent name, or
insufficient stock — leaves the inventory mapping exactly as it was; in
particular after `add_item "x" 5` on the empty store, `remove_item "x" 10`
raises `InsufficientQuantity` and `get_qty "x"` still returns 5. -/
theorem remove_failure_preserves_state :
    (∀ (inv : Inventory) (name : String) (qty : PyVal) (e : InvError),
        (remove_item inv name qty).1 = some e → (remove_item inv name qty).2 = inv)
    ∧ (remove_item (add_item [] (.vStr "x") (.vInt 5)).2 "x" (.vInt 10)).1
        = some (.insufficientQuantity "not enough quantity to remove")
    ∧ get_qty (remove_item (add_item [] (.vStr "x") (.vInt 5)).2 "x" (.vInt 10)).2 "x" = 5 := by
  refine ⟨?_, rfl, rfl⟩
  intro inv name qty e h
  rcases remove_item_err_state inv name qty with h1 | h2
  · rw [h] at h1
    exact Option.noConfusion h1
  · exact h2

/-- C1 witness: `remove_item` with quantity 0 on `[("y", 1)]` fails and the
mapping is unchanged. -/
theorem remove_failure_preserves_state_witness :
    (remove_item [("y", 1)] "y" (.vInt 0)).2 = [("y", 1)] :=
  remove_failure_preserves_state.1 [("y", 1)] "y" (.vInt 0)
    (.invalidArgument "qty must be a positive integer") rfl

/-- C5: a failing `load_data` — non-dict top level, non-string key, or a
non-coercible value anywhere in the input — leaves the inventory mapping
exactly as it was (all validation precedes the replacement); in particular
loading a JSON array on top of `[("a", 1)]` fails with `FormatError` and the
mapping stays `[("a", 1)]`. -/
theorem load_failure_preserves_state :
    (∀ (inv : Inventory) (data : PyVal) (e : InvError),
        (load_data inv data).1 = some e → (load_data inv data).2 = inv)
    ∧ load_data [("a", 1)] (.vList [])
        = (some (.formatError "inventory file must contain a JSON object mapping names to integers"),
           [("a", 1)]) := by
  refine ⟨?_, rfl⟩
  intro inv data e h
  rcases load_data_err_state inv data with h1 | h2
  · rw [h] at h1
    exact Option.noConfusion h1
  · exact h2

/-- C5 witness: loading a dict with a float value on top of `[("a", 1)]`
fails and the mapping is unchanged. -/
theorem load_failure_preserves_state_witness :
    (load_data [("a", 1)] (.vDict [(.vStr "x", PyVal.vFloat)])).2 = [("a", 1)] :=
  load_failure_preserves_state.1 [("a", 1)] (.vDict [(.vStr "x", PyVal.vFloat)])
    (.formatError "invalid quantity type for item x") rfl

/-- C9: the constructor copies the given initial mapping with no validation
at all — every entry, including empty-string keys and zero or negative
quantities, is observable unchanged via `get_qty` and `as_dict`. -/
theorem init_store_no_validation :
    ∀ (initial : Inventory), KeysNodup initial →
      ∀ k v, (k, v) ∈ initial →
        get_qty (init_store initial) k = v ∧ (k, v) ∈ as_dict (init_store initial) := by
  intro initial hnd k v hm
  refine ⟨?_, hm⟩
  simp [get_qty, init_store, mem_lookup initial k v hnd hm]

/-- C9 witness: a store constructed from `[("", 0), ("x", -2)]` reports
quantity -2 for `"x"` and exports the empty-keyed zero entry unchanged. -/
theorem init_store_no_validation_witness :
    get_qty (init_store [("", 0), ("x", -2)]) "x" = -2
    ∧ ("", 0) ∈ as_dict (init_store [("", 0), ("x", -2)]) :=
  ⟨(init_store_no_validation [("", 0), ("x", -2)] (by decide) "x" (-2) (by decide)).1,
   (init_store_no_validation [("", 0), ("x", -2)] (by decide) "" 0 (by decide)).2⟩

/-- C10: the string-coercion step of `load_data` accepts negative integer
literals: loading `{"x": "-3"}` succeeds and `get_qty "x"` afterwards
returns -3, so a successful load can introduce a negative stored
quantity. -/
theorem load_negative_string_quantity :
    load_data [] (.vDict [(.vStr "x", .vStr "-3")]) = (none, [("x", -3)])
    ∧ get_qty (load_data [] (.vDict [(.vStr "x", .vStr "-3")])).2 "x" = -3 :=
  ⟨rfl, rfl⟩

/-- C6 counterexample: loading `{"x": true}` does NOT fail with
`FormatError` — a boolean passes Python's `isinstance(v, int)` check (bool
is a subclass of int), so the load succeeds and stores quantity 1. -/
theorem load_accepts_boolean :
    (load_data [] (.vDict [(.vStr "x", .vBool true)])).1 = none
    ∧ (load_data [] (.vDict [(.vStr "x", .vBool true)])).2 = [("x", 1)] :=
  ⟨rfl, rfl⟩

/-- C8 counterexample: `load_data` does not preserve the invariant that
every stored quantity is strictly positive — loading `{"x": 0}` on a store
satisfying the invariant succeeds and stores quantity 0. -/
theorem load_breaks_invariant :
    InventoryInvariant [("a", 1)]
    ∧ load_data [("a", 1)] (.vDict [(.vStr "x", .vInt 0)]) = (none, [("x", 0)])
    ∧ ¬ InventoryInvariant (load_data [("a", 1)] (.vDict [(.vStr "x", .vInt 0)])).2 := by
  refine ⟨by decide, rfl, by decide⟩

theorem add_item_fail_iff (inv : Inventory) (name qty : PyVal) :
    (∃ e, (add_item inv name qty).1 = some e) ↔
      (isinstance_str name = false ∨ pyStr name = ""
        ∨ isinstance_int qty = false ∨ pyInt qty ≤ 0) := by
  by_cases h1 : isinstance_str name = false ∨ pyStr name = ""
  · simp only [add_item, if_pos h1]
    constructor
    · intro _
      tauto
    · intro _
      exact ⟨_, rfl⟩
  · by_cases h2 : isinstance_int qty = false ∨ pyInt qty ≤ 0
    · simp only [add_item, if_neg h1, if_pos h2]
      constructor
      · intro _
        tauto
      · intro _
        exact ⟨_, rfl⟩
    · simp only [add_item, if_neg h1, if_neg h2]
      constructor
      · rintro ⟨e, he⟩
        exact Option.noConfusion he
      · intro h
        tauto

/-- C2: `add_item` fails (always with `InvalidArgument`) exactly when the
name is not a string or is empty, or the quantity is not a positive integer
(in Python's sense of `int`, which includes `bool`); otherwise it succeeds,
the stored quantity for the name becomes its previous value (0 if absent)
plus the quantity, and no other entry changes.  The three concrete cases
`add("", 1)`, `add("x", 0)`, `add("x", -1)` all fail with
`InvalidArgument`. -/
theorem add_contract :
    ∀ (inv : Inventory) (name qty : PyVal),
      ((∃ e, (add_item inv name qty).1 = some e) ↔
        ((∀ s, name ≠ .vStr s) ∨ name = .vStr ""
          ∨ isinstance_int qty = false ∨ pyInt qty ≤ 0))
      ∧ (∀ e, (add_item inv name qty).1 = some e → ∃ m, e = .invalidArgument m)
      ∧ ((add_item inv name qty).1 = none →
          get_qty (add_item inv name qty).2 (pyStr name)
              = get_qty inv (pyStr name) + pyInt qty
          ∧ ∀ m, m ≠ pyStr name → lookup (add_item inv name qty).2 m = lookup inv m)
      ∧ (add_item inv (.vStr "") (.vInt 1)).1
          = some (.invalidArgument "name must be a non-empty string")
      ∧ (add_item inv (.vStr "x") (.vInt 0)).1
          = some (.invalidArgument "qty must be a positive integer")
      ∧ (add_item inv (.vStr "x") (.vInt (-1))).1
          = some (.invalidArgument "qty must be a positive integer") := by
  intro inv name qty
  refine ⟨?_, ?_, ?_, rfl, rfl, rfl⟩
  · rw [add_item_fail_iff]
    rw [isinstance_str_eq_false_iff]
    by_cases hs : ∀ s, name ≠ .vStr s
    · tauto
    · push_neg at hs
      obtain ⟨s, hrfl⟩ := hs
      subst hrfl
      have h2 : pyStr (PyVal.vStr s) = "" ↔ PyVal.vStr s = PyVal.vStr "" := by
        simp [pyStr]
      rw [h2]
  · intro e he
    by_cases h1 : isinstance_str name = false ∨ pyStr name = ""
    · simp only [add_item, if_pos h1] at he
      exact ⟨_, (Option.some.injEq .. ▸ he).symm⟩
    · by_cases h2 : isinstance_int qty = false ∨ pyInt qty ≤ 0
      · simp only [add_item, if_neg h1, if_pos h2] at he
        exact ⟨_, (Option.some.injEq .. ▸ he).symm⟩
      · simp only [add_item, if_neg h1, if_neg h2] at he
        exact Option.noConfusion he
  · intro hnone
    by_cases h1 : isinstance_str name = false ∨ pyStr name = ""
    · simp only [add_item, if_pos h1] at hnone
      exact Option.noConfusion hnone
    · by_cases h2 : isinstance_int qty = false ∨ pyInt qty ≤ 0
      · simp only [add_item, if_neg h1, if_pos h2] at hnone
        exact Option.noConfusion hnone
      · constructor
        · simp [add_item, if_neg h1, if_neg h2, get_qty, lookup_setQty_self]
        · intro m hm
          simp only [add_item, if_neg h1, if_neg h2]
          exact lookup_setQty_ne inv (pyStr name) m _ hm

/-- C2 witness: `add("", 1)` fails with the name-validation error, and on
the store `[("x", 2)]` a successful `add("x", 3)` yields stored quantity
5. -/
theorem add_contract_witness :
    (add_item [] (.vStr "") (.vInt 1)).1
        = some (.invalidArgument "name must be a non-empty string")
    ∧ get_qty (add_item [("x", 2)] (.vStr "x") (.vInt 3)).2 "x" = 5 := by
  constructor
  · exact (add_contract [] (.vStr "") (.vInt 1)).2.2.2.1
  · exact ((add_contract [("x", 2)] (.vStr "x") (.vInt 3)).2.2.1 rfl).1

/-- C3: with a positive integer quantity, `remove_item` fails with
`NotFound` when the name is absent; on success it decrements the stored
quantity, and when the result is exactly 0 the entry is deleted entirely,
so `get_qty` returns 0 and the name is absent from `as_dict`.  The
`KeysNodup` hypothesis is the well-formedness of the dict model. -/
theorem remove_contract :
    ∀ (inv : Inventory) (name : String) (q : Int), 0 < q → KeysNodup inv →
      (lookup inv name = none →
        (remove_item inv name (.vInt q)).1
          = some (.notFound ("item \x27" ++ name ++ "\x27 not found")))
      ∧ (∀ cur, lookup inv name = some cur → q ≤ cur →
          (remove_item inv name (.vInt q)).1 = none
          ∧ get_qty (remove_item inv name (.vInt q)).2 name = cur - q
          ∧ (cur - q = 0 →
              get_qty (remove_item inv name (.vInt q)).2 name = 0
              ∧ lookup (as_dict (remove_item inv name (.vInt q)).2) name = none)) := by
  intro inv name q hq hnd
  have hq' : ¬ q ≤ 0 := by omega
  constructor
  · intro habs
    simp [remove_item, isinstance_int, pyInt, hq', habs]
  · intro cur hcur hle
    have hnlt : ¬ cur < q := by omega
    by_cases hz : cur - q = 0
    · have hl1 : lookup (setQty inv name (cur - q)) name = some 0 := by
        rw [lookup_setQty_self, hz]
      have hres : remove_item inv name (.vInt q) = (none, eraseKey inv name) := by
        simp [remove_item, isinstance_int, pyInt, hq', hcur, hnlt, hl1, eraseKey_setQty]
      refine ⟨by simp [hres], ?_, ?_⟩
      · simp [hres, get_qty, lookup_eraseKey_self inv name hnd]
        omega
      · intro _
        exact ⟨by simp [hres, get_qty, lookup_eraseKey_self inv name hnd],
               by simp [hres, as_dict, lookup_eraseKey_self inv name hnd]⟩
    · have hl1 : ¬ lookup (setQty inv name (cur - q)) name = some 0 := by
        rw [lookup_setQty_self]
        simp [hz]
      have hres : remove_item inv name (.vInt q) = (none, setQty inv name (cur - q)) := by
        simp [remove_item, isinstance_int, pyInt, hq', hcur, hnlt, hl1]
      refine ⟨by simp [hres], by simp [hres, get_qty, lookup_setQty_self], ?_⟩
      intro h0
      exact absurd h0 hz

/-- C3 witness: `remove("missing", 1)` on `[("x", 3)]` fails with
`NotFound`, and removing all 3 of `"x"` deletes the entry: `get_qty`
returns 0 and the name is absent from `as_dict`. -/
theorem remove_contract_witness :
    (remove_item [("x", 3)] "missing" (.vInt 1)).1
        = some (.notFound "item \x27missing\x27 not found")
    ∧ get_qty (remove_item [("x", 3)] "x" (.vInt 3)).2 "x" = 0
    ∧ lookup (as_dict (remove_item [("x", 3)] "x" (.vInt 3)).2) "x" = none := by
  refine ⟨?_, ?_, ?_⟩
  · exact (remove_contract [("x", 3)] "missing" 1 (by decide) (by decide)).1 rfl
  · exact (((remove_contract [("x", 3)] "x" 3 (by decide) (by decide)).2 3 rfl
      (by decide)).2.2 (by decide)).1
  · exact (((remove_contract [("x", 3)] "x" 3 (by decide) (by decide)).2 3 rfl
      (by decide)).2.2 (by decide)).2

/-- C4: `check_low_items` fails with `InvalidArgument` on a negative
integer threshold, and on a non-negative one returns exactly the names
whose quantity is at most the threshold (boundary included); on
`{a:3, b:5, c:6}` with threshold 5 it returns `["a", "b"]`. -/
theorem check_low_contract :
    ∀ (inv : Inventory) (t : Int),
      ((t < 0 → check_low_items inv (.vInt t)
          = .error (.invalidArgument "threshold must be a non-negative integer"))
       ∧ (0 ≤ t → ∃ l, check_low_items inv (.vInt t) = .ok l
            ∧ ∀ name, name ∈ l ↔ ∃ q, (name, q) ∈ inv ∧ q ≤ t))
      ∧ check_low_items [("a", 3), ("b", 5), ("c", 6)] (.vInt 5) = .ok ["a", "b"] := by
  intro inv t
  refine ⟨⟨?_, ?_⟩, rfl⟩
  · intro hneg
    simp [check_low_items, isinstance_int, pyInt, hneg]
  · intro hpos
    have hc : ¬(isinstance_int (PyVal.vInt t) = false ∨ pyInt (PyVal.vInt t) < 0) := by
      simp [isinstance_int, pyInt]
      omega
    refine ⟨(inv.filter (fun p => p.2 ≤ pyInt (.vInt t))).map Prod.fst,
      by simp [check_low_items, hc], ?_⟩
    intro name
    simp only [List.mem_map, List.mem_filter, pyInt]
    constructor
    · rintro ⟨⟨k, v⟩, ⟨hmem, hdec⟩, hfst⟩
      subst hfst
      exact ⟨v, hmem, by simpa using hdec⟩
    · rintro ⟨v, hmem, hle⟩
      exact ⟨(name, v), ⟨hmem, by simpa using hle⟩, rfl⟩

/-- C4 witness: threshold -1 on `[("a", 3)]` fails with `InvalidArgument`,
and the concrete `{a:3, b:5, c:6}` query with threshold 5 returns
`["a", "b"]`. -/
theorem check_low_contract_witness :
    check_low_items [("a", 3)] (.vInt (-1))
        = .error (.invalidArgument "threshold must be a non-negative integer")
    ∧ check_low_items [("a", 3), ("b", 5), ("c", 6)] (.vInt 5) = .ok ["a", "b"] :=
  ⟨((check_low_contract [("a", 3)] (-1)).1).1 (by decide),
   (check_low_contract [] 0).2⟩

/-- C6 (amended): per entry, `load_data` accepts an integer value as-is and
— because Python's `bool` is a subclass of `int` — also accepts a boolean
as-is (`true` stores 1, `false` stores 0); a string value is coerced
through `literal_eval`, succeeding exactly when the result passes the
integer check and failing with `FormatError` naming the key otherwise;
every other value type (float, list, null, nested dict) fails with
`FormatError` naming the key.  `{"x": "5"}` loads as 5 and `{"x": "abc"}`
fails. -/
theorem load_value_coercion :
    ∀ (inv : Inventory) (k : String) (v : PyVal),
      (∀ n, v = .vInt n → load_data inv (.vDict [(.vStr k, v)]) = (none, [(k, n)]))
      ∧ (∀ b, v = .vBool b →
          load_data inv (.vDict [(.vStr k, v)]) = (none, [(k, if b then 1 else 0)]))
      ∧ (∀ s, v = .vStr s →
          (∀ ev, literal_eval s = some ev → isinstance_int ev = true →
            load_data inv (.vDict [(.vStr k, v)]) = (none, [(k, pyInt ev)]))
          ∧ (literal_eval s = none →
            load_data inv (.vDict [(.vStr k, v)])
              = (some (.formatError ("invalid quantity for item " ++ k)), inv))
          ∧ (∀ ev, literal_eval s = some ev → isinstance_int ev = false →
            load_data inv (.vDict [(.vStr k, v)])
              = (some (.formatError ("invalid quantity for item " ++ k)), inv)))
      ∧ ((v = .vFloat ∨ v = .vNone ∨ (∃ l, v = .vList l) ∨ (∃ d, v = .vDict d)) →
          load_data inv (.vDict [(.vStr k, v)])
            = (some (.formatError ("invalid quantity type for item " ++ k)), inv))
      ∧ load_data inv (.vDict [(.vStr "x", .vStr "5")]) = (none, [("x", 5)])
      ∧ (load_data inv (.vDict [(.vStr "x", .vStr "abc")])).1
          = some (.formatError "invalid quantity for item x") := by
  intro inv k v
  refine ⟨?_, ?_, ?_, ?_, ?_, ?_⟩
  · intro n hv
    subst hv
    simp [load_data, normalize_entries, isinstance_int, pyInt, Except.map]
  · intro b hv
    subst hv
    simp [load_data, normalize_entries, isinstance_int, pyInt, Except.map]
  · intro s hv
    subst hv
    have hout : isinstance_int (PyVal.vStr s) = false := rfl
    refine ⟨?_, ?_, ?_⟩
    · intro ev hev hint
      simp [load_data, normalize_entries, hout, hev, hint, Except.map]
    · intro hev
      simp [load_data, normalize_entries, hout, hev]
    · intro ev hev hint
      simp [load_data, normalize_entries, hout, hev, hint]
  · intro hother
    rcases hother with hv | hv | ⟨l, hv⟩ | ⟨d, hv⟩ <;>
      (subst hv; simp [load_data, normalize_entries, isinstance_int])
  · simp [load_data, normalize_entries, isinstance_int]
    rfl
  · simp [load_data, normalize_entries, isinstance_int]
    rfl

/-- C6 witness: an integer value 7 and the string "12" both load
successfully with the coerced integer stored. -/
theorem load_value_coercion_witness :
    load_data [] (.vDict [(.vStr "y", .vInt 7)]) = (none, [("y", 7)])
    ∧ load_data [] (.vDict [(.vStr "y", .vStr "12")]) = (none, [("y", 12)]) :=
  ⟨(load_value_coercion [] "y" (.vInt 7)).1 7 rfl,
   ((load_value_coercion [] "y" (.vStr "12")).2.2.1 "12" rfl).1 (.vInt 12) rfl rfl⟩

theorem normalize_entries_save (inv : Inventory) :
    normalize_entries (inv.map (fun p => (PyVal.vStr p.1, PyVal.vInt p.2))) = .ok inv := by
  induction inv with
  | nil => rfl
  | cons hd tl ih =>
    obtain ⟨k, v⟩ := hd
    simp [normalize_entries, isinstance_int, pyInt, ih, Except.map]

/-- C7: for a store whose quantities are all positive, serializing with
`save_data` and immediately reloading the produced JSON value with
`load_data` succeeds and reproduces exactly the mapping present before the
save. -/
theorem save_load_round_trip :
    ∀ (inv : Inventory), (∀ p ∈ inv, 0 < p.2) →
      load_data inv (save_data inv) = (none, inv) := by
  intro inv _
  simp [load_data, save_data, normalize_entries_save]

/-- C7 witness: the round trip on the concrete store
`[("x", 2), ("y", 9)]`. -/
theorem save_load_round_trip_witness :
    load_data [("x", 2), ("y", 9)] (save_data [("x", 2), ("y", 9)])
      = (none, [("x", 2), ("y", 9)]) :=
  save_load_round_trip [("x", 2), ("y", 9)] (by decide)

/-- C8 (amended): the invariant — every key a non-empty string, every
stored quantity strictly positive — is preserved by `add_item` and
`remove_item` (and trivially by the read-only operations `get_qty`,
`check_low_items`, `as_dict` and `save_data`, which do not produce a new
state); `load_data` does not preserve it. -/
theorem add_remove_preserve_invariant :
    ∀ (inv : Inventory), InventoryInvariant inv →
      (∀ (name qty : PyVal), InventoryInvariant (add_item inv name qty).2)
      ∧ (∀ (name : String) (qty : PyVal), InventoryInvariant (remove_item inv name qty).2) := by
  intro inv hinv
  constructor
  · intro name qty
    unfold add_item
    split
    · exact hinv
    · split
      · exact hinv
      · rename_i h1 h2
        push_neg at h1 h2
        dsimp only
        intro p hp
        rcases mem_setQty _ _ _ _ hp with hpe | hpi
        · subst hpe
          refine ⟨h1.2, ?_⟩
          have hq : 0 < pyInt qty := h2.2
          rcases hl : lookup inv (pyStr name) with _ | x
          · simp [hl]
            omega
          · have hx := (hinv _ (lookup_mem _ _ _ hl)).2
            simp [hl]
            omega
        · exact hinv p hpi
  · intro name qty
    unfold remove_item
    split
    · exact hinv
    · split
      · exact hinv
      · rename_i cur hcur
        split
        · exact hinv
        · rename_i hge
          dsimp only
          split
          · rw [eraseKey_setQty]
            intro p hp
            exact hinv p (mem_eraseKey _ _ _ hp)
          · rename_i hnz
            intro p hp
            rcases mem_setQty _ _ _ _ hp with hpe | hpi
            · subst hpe
              refine ⟨(hinv _ (lookup_mem _ _ _ hcur)).1, ?_⟩
              have hne : cur - pyInt qty ≠ 0 := by
                intro h0
                refine hnz ?_
                rw [lookup_setQty_self, h0]
              omega
            · exact hinv p hpi

/-- C8 witness: the invariant holds after adding a fresh item to and after
removing part of the stock of the invariant-satisfying store
`[("a", 2)]`. -/
theorem add_remove_preserve_invariant_witness :
    InventoryInvariant (add_item [("a", 2)] (.vStr "b") (.vInt 1)).2
    ∧ InventoryInvariant (remove_item [("a", 2)] "a" (.vInt 1)).2 :=
  ⟨(add_remove_preserve_invariant [("a", 2)] (by decide)).1 (.vStr "b") (.vInt 1),
   (add_remove_preserve_invariant [("a", 2)] (by decide)).2 "a" (.vInt 1)⟩
